import Mathlib

set_option maxRecDepth 100000

/-!
Verification of the clip normalization and concatenation pipeline of the
agent-video-editor repository.

The pipeline is implemented by shell scripts that assemble and execute an
ffmpeg invocation:

* `src/backend/storage/edit.sh`, first script ("merge variant A"): dynamic
  N-input merge with per-clip scale/pad/setsar normalization, a concat join
  for N > 1 and a direct-map branch for N = 1.
* `src/backend/storage/edit.sh`, second script ("merge variant B"): dynamic
  N-input merge with no normalization and an unconditional concat join.
* `src/unnamed/part_000`, first script (`merge3`): fixed 3-input merge.
* `src/unnamed/part_000`, second script (`merge9`): fixed 9-input merge.

Each script is embedded as a pure function from its argument list to the
command it executes (or the usage error it exits with).
-/

namespace AgentVideoEditor

/-- Result of running one of the merge scripts: either the usage message and
exit code from the argument-count guard, or the engine command that is
executed (`exec` for the scripts that `eval` a built string, `execArgv` for
the fixed scripts that invoke ffmpeg directly with an argument vector). -/
inductive ScriptResult where
  | usage (msg : String) (code : Nat)
  | exec (cmd : String)
  | execArgv (argv : List String)
deriving DecidableEq

/-! ## edit.sh, merge variant A (lines 1-37) -/

/-- Usage message of merge variant A (edit.sh line 5). -/
def usageA : String := "Usage: $0 <input1> [input2...] <output>"

/-- Per-clip normalization fragment appended to `filter_complex` on each loop
iteration (edit.sh line 21). -/
def clipFilterA (i : Nat) : String :=
  "[" ++ toString i ++ ":v]scale=1920:1080:force_original_aspect_ratio=decrease,pad=1920:1080:(ow-iw)/2:(oh-ih)/2,setsar=1[v" ++ toString i ++ "]; "

/-- Per-clip pair appended to `concat_inputs` on each loop iteration
(edit.sh line 22). -/
def concatPairA (i : Nat) : String :=
  "[v" ++ toString i ++ "][" ++ toString i ++ ":a]"

/-- The `filter_complex` accumulator after the loop over inputs `0..n-1`
(edit.sh lines 19-23). -/
def filterComplexA : Nat → String
  | 0 => ""
  | n + 1 => filterComplexA n ++ clipFilterA n

/-- The `concat_inputs` accumulator after the loop over inputs `0..n-1`
(edit.sh lines 19-23). -/
def concatInputsA : Nat → String
  | 0 => ""
  | n + 1 => concatInputsA n ++ concatPairA n

/-- The full command string `cmd` built by merge variant A
(edit.sh lines 14-34): input arguments, then either the filter graph with the
concat join (more than one input) or direct stream maps (one input), then the
encoder arguments and the output path. -/
def cmdA (inputs : List String) (output : String) : String :=
  let withInputs := "ffmpeg" ++ String.join (inputs.map (fun p => " -i \"" ++ p ++ "\""))
  let n := inputs.length
  let mapped :=
    if 1 < n then
      withInputs ++ " -filter_complex \"" ++ filterComplexA n ++ concatInputsA n
        ++ "concat=n=" ++ toString n ++ ":v=1:a=1[v][a]\" -map \"[v]\" -map \"[a]\""
    else
      withInputs ++ " -map 0:v -map 0:a"
  mapped ++ " -c:v libx264 -crf 23 -preset veryfast -c:a aac -b:a 192k \"" ++ output ++ "\""

/-- Merge variant A as a whole (edit.sh lines 1-37): the argument-count guard,
then construction and `eval` of the command; inputs are all arguments but the
last, the output is the last argument. -/
def editShA (args : List String) : ScriptResult :=
  if args.length < 2 then .usage usageA 1
  else .exec (cmdA args.dropLast (args.getLastD ""))

/-! ## edit.sh, merge variant B (lines 38-67) -/

/-- Per-clip fragment appended to `filter_complex` on each loop iteration of
merge variant B (edit.sh line 56): raw video and audio stream references,
with no normalization filters. -/
def pairB (i : Nat) : String :=
  "[" ++ toString i ++ ":v:0] [" ++ toString i ++ ":a:0] "

/-- The `filter_complex` accumulator of merge variant B after the loop
(edit.sh lines 54-57). -/
def filterInputsB : Nat → String
  | 0 => ""
  | n + 1 => filterInputsB n ++ pairB n

/-- The completed `filter_complex` string of merge variant B
(edit.sh line 60): the concat join is appended unconditionally, whatever the
number of inputs. -/
def filterComplexB (n : Nat) : String :=
  filterInputsB n ++ "concat=n=" ++ toString n ++ ":v=1:a=1 [v] [a]"

/-- The full command string built by merge variant B (edit.sh lines 49-64). -/
def cmdB (inputs : List String) (output : String) : String :=
  "ffmpeg" ++ String.join (inputs.map (fun p => " -i " ++ p))
    ++ " -filter_complex \"" ++ filterComplexB inputs.length
    ++ "\" -map \"[v]\" -map \"[a]\" -vsync 2 " ++ output

/-- Merge variant B as a whole (edit.sh lines 38-67): no argument-count guard;
the command is built and executed directly. -/
def editShB (args : List String) : ScriptResult :=
  .exec (cmdB args.dropLast (args.getLastD ""))

/-! ## part_000, fixed 3-input and 9-input scripts -/

/-- Usage message of the fixed 3-input script (part_000 line 5). -/
def usage3 : String := "Usage: $0 <input1> <input2> <input3> <output>"

/-- Usage message of the fixed 9-input script (part_000 line 28). -/
def usage9 : String := "Usage: $0 <input1> <input2> <input3> <input4> <input5> <input6> <input7> <input8> <input9> <output>"

/-- The literal `filter_complex` argument of the fixed 3-input script
(part_000 lines 16-19), with the line continuations inside the quoted string
resolved exactly as the shell does (backslash-newline removed, the leading
space of each continued line kept). -/
def filter3Fixed : String :=
  "[0:v]scale=1920:1080:force_original_aspect_ratio=decrease,pad=1920:1080:(ow-iw)/2:(oh-ih)/2,setsar=1[v0];  [1:v]scale=1920:1080:force_original_aspect_ratio=decrease,pad=1920:1080:(ow-iw)/2:(oh-ih)/2,setsar=1[v1];  [2:v]scale=1920:1080:force_original_aspect_ratio=decrease,pad=1920:1080:(ow-iw)/2:(oh-ih)/2,setsar=1[v2];  [v0][0:a][v1][1:a][v2][2:a]concat=n=3:v=1:a=1[v][a]"

/-- The literal `filter_complex` argument of the fixed 9-input script
(part_000 lines 45-54), line continuations resolved as in `filter3Fixed`. -/
def filter9Fixed : String :=
  "[0:v]scale=1920:1080:force_original_aspect_ratio=decrease,pad=1920:1080:(ow-iw)/2:(oh-ih)/2,setsar=1[v0];  [1:v]scale=1920:1080:force_original_aspect_ratio=decrease,pad=1920:1080:(ow-iw)/2:(oh-ih)/2,setsar=1[v1];  [2:v]scale=1920:1080:force_original_aspect_ratio=decrease,pad=1920:1080:(ow-iw)/2:(oh-ih)/2,setsar=1[v2];  [3:v]scale=1920:1080:force_original_aspect_ratio=decrease,pad=1920:1080:(ow-iw)/2:(oh-ih)/2,setsar=1[v3];  [4:v]scale=1920:1080:force_original_aspect_ratio=decrease,pad=1920:1080:(ow-iw)/2:(oh-ih)/2,setsar=1[v4];  [5:v]scale=1920:1080:force_original_aspect_ratio=decrease,pad=1920:1080:(ow-iw)/2:(oh-ih)/2,setsar=1[v5];  [6:v]scale=1920:1080:force_original_aspect_ratio=decrease,pad=1920:1080:(ow-iw)/2:(oh-ih)/2,setsar=1[v6];  [7:v]scale=1920:1080:force_original_aspect_ratio=decrease,pad=1920:1080:(ow-iw)/2:(oh-ih)/2,setsar=1[v7];  [8:v]scale=1920:1080:force_original_aspect_ratio=decrease,pad=1920:1080:(ow-iw)/2:(oh-ih)/2,setsar=1[v8];  [v0][0:a][v1][1:a][v2][2:a][v3][3:a][v4][4:a][v5][5:a][v6][6:a][v7][7:a][v8][8:a]concat=n=9:v=1:a=1[v][a]"

/-- The argument vector of the ffmpeg invocation of the fixed 3-input script
(part_000 lines 14-23). -/
def merge3Argv (i1 i2 i3 o : String) : List String :=
  ["ffmpeg", "-i", i1, "-i", i2, "-i", i3,
   "-filter_complex", filter3Fixed,
   "-map", "[v]", "-map", "[a]",
   "-c:v", "libx264", "-crf", "23", "-preset", "veryfast",
   "-c:a", "aac", "-b:a", "192k", o]

/-- The fixed 3-input script as a whole (part_000 lines 1-23): exact
argument-count guard, then the fixed ffmpeg invocation on `$1..$4`. -/
def merge3 (args : List String) : ScriptResult :=
  if args.length = 4 then
    .execArgv (merge3Argv (args.getD 0 "") (args.getD 1 "") (args.getD 2 "") (args.getD 3 ""))
  else .usage usage3 1

/-- The argument vector of the ffmpeg invocation of the fixed 9-input script
(part_000 lines 43-58). -/
def merge9Argv (i1 i2 i3 i4 i5 i6 i7 i8 i9 o : String) : List String :=
  ["ffmpeg", "-i", i1, "-i", i2, "-i", i3, "-i", i4, "-i", i5, "-i", i6,
   "-i", i7, "-i", i8, "-i", i9,
   "-filter_complex", filter9Fixed,
   "-map", "[v]", "-map", "[a]",
   "-c:v", "libx264", "-crf", "23", "-preset", "veryfast",
   "-c:a", "aac", "-b:a", "192k", o]

/-- The fixed 9-input script as a whole (part_000 lines 24-58): exact
argument-count guard, then the fixed ffmpeg invocation on `$1..${10}`. -/
def merge9 (args : List String) : ScriptResult :=
  if args.length = 10 then
    .execArgv (merge9Argv (args.getD 0 "") (args.getD 1 "") (args.getD 2 "")
      (args.getD 3 "") (args.getD 4 "") (args.getD 5 "") (args.getD 6 "")
      (args.getD 7 "") (args.getD 8 "") (args.getD 9 ""))
  else .usage usage9 1

/-! ## Jobs and the executor, as the scripts realize them

The spec's data model gives each clip a path and intrinsic metadata (width,
height, audio presence). The scripts receive only the paths on their command
line; no script reads media metadata. A job is submitted by invoking the
merge script with the clip paths followed by the output path. -/

/-- A clip of a job, carrying the metadata the spec's data model describes.
Only `path` ever reaches the scripts. -/
structure Clip where
  path : String
  width : Int
  height : Int
  hasAudio : Bool
deriving DecidableEq

/-- Running a job through merge variant A: the script is invoked with the
clip paths in order followed by the output path (edit.sh reads nothing but
its arguments). -/
def runJobA (clips : List Clip) (output : String) : ScriptResult :=
  editShA (clips.map Clip.path ++ [output])

/-- Observable outcome of the engine process that `eval` runs: its exit code
and the state of the declared output file afterwards. -/
structure EngineRun where
  exitCode : Nat
  outputExists : Bool
  outputSize : Nat
deriving DecidableEq

/-- The exit status of merge variant A as a whole process: the guard exits 1
on bad arity; otherwise `eval $cmd` is the script's last command, so the
script's exit status is the engine's exit code (edit.sh lines 36-37) — the
script inspects nothing about the output file afterwards. -/
def scriptExitA (args : List String) (run : EngineRun) : Nat :=
  match editShA args with
  | .usage _ code => code
  | _ => run.exitCode

/-- Processing a sequence of merge requests: each request is an independent
invocation of merge variant A. The script defines no job registry, lock file
or other state shared between invocations, so each request's result is the
script applied to its own argument list. -/
def processRequestsA (reqs : List (List String)) : List ScriptResult :=
  reqs.map editShA

/-! ## Spec-side descriptions (for refinement statements) -/

/-- Spec wording: the label of clip `i`'s normalized video output. -/
def videoLabel (i : Nat) : String := "[v" ++ toString i ++ "]"

/-- Spec wording: the reference to clip `i`'s original audio stream. -/
def audioLabel (i : Nat) : String := "[" ++ toString i ++ ":a]"

/-- Spec wording: a per-clip normalization stage — scale into a
`width`x`height` box with an aspect-ratio mode, pad to exactly that box with
the given offset expressions, and force the sample aspect ratio. -/
structure NormStage where
  inIdx : Nat
  width : Nat
  height : Nat
  arMode : String
  padX : String
  padY : String
  sar : Nat

/-- Rendering of a `NormStage` in the engine's filter syntax. -/
def renderNormStage (s : NormStage) : String :=
  "[" ++ toString s.inIdx ++
    (":v]scale=" ++ toString s.width ++ ":" ++ toString s.height
      ++ ":force_original_aspect_ratio=" ++ s.arMode
      ++ ",pad=" ++ toString s.width ++ ":" ++ toString s.height
      ++ ":" ++ s.padX ++ ":" ++ s.padY
      ++ ",setsar=" ++ toString s.sar ++ "[v") ++
    toString s.inIdx ++ "]; "

/-- The canonical normalization stage the spec prescribes for clip `i`:
1920x1080 box, aspect-preserving `decrease` scaling, centered padding, unit
sample aspect ratio. -/
def canonicalStage (i : Nat) : NormStage :=
  ⟨i, 1920, 1080, "decrease", "(ow-iw)/2", "(oh-ih)/2", 1⟩

/-! ## Substring machinery (for stating presence/absence of graph stages) -/

/-- `leadingRun pat l` is true when `pat` is an initial segment of `l`. -/
def leadingRun : List Char → List Char → Bool
  | [], _ => true
  | _ :: _, [] => false
  | p :: ps, c :: cs => p == c && leadingRun ps cs

/-- `hasRun pat l` is true when `pat` occurs contiguously inside `l`. -/
def hasRun (pat : List Char) : List Char → Bool
  | [] => pat.isEmpty
  | c :: cs => leadingRun pat (c :: cs) || hasRun pat cs

/-- `strContains s pat` is true when `pat` occurs as a substring of `s`. -/
def strContains (s pat : String) : Bool := hasRun pat.data s.data

/-- Number of (possibly overlapping) occurrences of `pat` inside `l`. -/
def countRuns (pat : List Char) : List Char → Nat
  | [] => 0
  | c :: cs => (if leadingRun pat (c :: cs) then 1 else 0) + countRuns pat cs

/-- Number of per-clip normalization stages appearing in a rendered command:
each stage of the variant-A graph contains exactly one `setsar=` filter. -/
def stageCount (s : String) : Nat := countRuns "setsar=".data s.data

/-! ## Helper lemmas -/

theorem glue (a b c x : String) (h : a ++ b = c) : a ++ (b ++ x) = c ++ x := by
  rw [← String.append_assoc, h]

theorem join_snoc (l : List String) (s : String) :
    String.join (l ++ [s]) = String.join l ++ s := by
  simp [String.join, List.foldl_append]

theorem pair_split (i : Nat) : concatPairA i = videoLabel i ++ audioLabel i := by
  rw [concatPairA, videoLabel, audioLabel]
  simp only [String.append_assoc]
  rw [glue "]" "[" "][" (toString i ++ ":a]") rfl]

theorem concatInputsA_join (n : Nat) :
    concatInputsA n = String.join ((List.range n).map (fun i => videoLabel i ++ audioLabel i)) := by
  induction n with
  | zero => simp [concatInputsA, String.join]
  | succ m ih =>
    rw [List.range_succ]
    simp only [List.map_append, List.map_cons, List.map_nil]
    rw [join_snoc, ← ih, concatInputsA, pair_split]

theorem filterComplexA_join (n : Nat) :
    filterComplexA n = String.join ((List.range n).map clipFilterA) := by
  induction n with
  | zero => simp [filterComplexA, String.join]
  | succ m ih =>
    rw [List.range_succ]
    simp only [List.map_append, List.map_cons, List.map_nil]
    rw [join_snoc, ← ih, filterComplexA]

theorem filterComplexA_decomp {n i : Nat} (h : i < n) :
    ∃ pre post, filterComplexA n = pre ++ clipFilterA i ++ post := by
  induction n with
  | zero => exact absurd h (Nat.not_lt_zero i)
  | succ m ih =>
    rcases Nat.lt_succ_iff_lt_or_eq.mp h with h' | h'
    · obtain ⟨pre, post, hp⟩ := ih h'
      exact ⟨pre, post ++ clipFilterA m, by
        simp [filterComplexA, hp, String.append_assoc]⟩
    · subst h'
      exact ⟨filterComplexA i, "", by rw [filterComplexA, String.append_empty]⟩

theorem concatInputsA_decomp {n i : Nat} (h : i < n) :
    ∃ pre post, concatInputsA n = pre ++ concatPairA i ++ post := by
  induction n with
  | zero => exact absurd h (Nat.not_lt_zero i)
  | succ m ih =>
    rcases Nat.lt_succ_iff_lt_or_eq.mp h with h' | h'
    · obtain ⟨pre, post, hp⟩ := ih h'
      exact ⟨pre, post ++ concatPairA m, by
        simp [concatInputsA, hp, String.append_assoc]⟩
    · subst h'
      exact ⟨concatInputsA i, "", by rw [concatInputsA, String.append_empty]⟩

theorem cmdA_single (p out : String) :
    cmdA [p] out =
      "ffmpeg" ++ " -i \"" ++ p ++ "\"" ++ " -map 0:v -map 0:a"
        ++ " -c:v libx264 -crf 23 -preset veryfast -c:a aac -b:a 192k \"" ++ out ++ "\"" := by
  simp [cmdA, String.join, String.append_assoc]
  rw [glue "ffmpeg" " -i \"" "ffmpeg -i \"" _ rfl]

theorem cmdA_multi (inputs : List String) (out : String) (h : 1 < inputs.length) :
    cmdA inputs out =
      ("ffmpeg" ++ String.join (inputs.map (fun p => " -i \"" ++ p ++ "\""))
          ++ " -filter_complex \"" ++ filterComplexA inputs.length) ++
        (concatInputsA inputs.length ++
          ("concat=n=" ++ (toString inputs.length ++
            (":v=1:a=1[v][a]\" -map \"[v]\" -map \"[a]\" -c:v libx264 -crf 23 -preset veryfast -c:a aac -b:a 192k \"" ++
              (out ++ "\""))))) := by
  simp [cmdA, h, String.append_assoc]

theorem clipFilterA_canonical (i : Nat) :
    clipFilterA i = renderNormStage (canonicalStage i) := by
  have h1920 : toString (1920 : Nat) = "1920" := rfl
  have h1080 : toString (1080 : Nat) = "1080" := rfl
  have h1 : toString (1 : Nat) = "1" := rfl
  simp [clipFilterA, renderNormStage, canonicalStage, h1920, h1080, h1]

theorem editShA_exec (args : List String) (h : 2 ≤ args.length) :
    editShA args = .exec (cmdA args.dropLast (args.getLastD "")) := by
  have h' : ¬ args.length < 2 := Nat.not_lt.mpr h
  simp [editShA, h']

theorem runJobA_paths (clips clips2 : List Clip) (out : String)
    (h : clips.map Clip.path = clips2.map Clip.path) :
    runJobA clips out = runJobA clips2 out := by
  rw [runJobA, runJobA, h]

/-! ## Claims -/

/-- Claim C1: for every job with N clips, the join stage's input list is the
per-clip streams in ClipRef index order as video-then-audio pairs,
`[v0][0:a][v1][1:a]...[v(N-1)][(N-1):a]`: the `concat_inputs` accumulator of
merge variant A equals exactly that pair sequence joined in index order, and
the literal join lines of the fixed 3-input and 9-input scripts are that same
sequence at N = 3 and N = 9. -/
theorem C1_join_order :
    (∀ n : Nat, concatInputsA n
        = String.join ((List.range n).map (fun i => videoLabel i ++ audioLabel i)))
    ∧ (∀ inputs : List String, ∀ out : String, 1 < inputs.length →
        ∃ pre tail, cmdA inputs out = pre ++ concatInputsA inputs.length ++ tail)
    ∧ filter3Fixed = String.join ((List.range 3).map (fun i => renderNormStage (canonicalStage i) ++ " "))
        ++ concatInputsA 3 ++ "concat=n=3:v=1:a=1[v][a]"
    ∧ filter9Fixed = String.join ((List.range 9).map (fun i => renderNormStage (canonicalStage i) ++ " "))
        ++ concatInputsA 9 ++ "concat=n=9:v=1:a=1[v][a]" := by
  refine ⟨concatInputsA_join, ?_, by decide, by decide⟩
  intro inputs out h
  refine ⟨"ffmpeg" ++ String.join (inputs.map (fun p => " -i \"" ++ p ++ "\""))
      ++ " -filter_complex \"" ++ filterComplexA inputs.length,
    "concat=n=" ++ (toString inputs.length ++
      (":v=1:a=1[v][a]\" -map \"[v]\" -map \"[a]\" -c:v libx264 -crf 23 -preset veryfast -c:a aac -b:a 192k \"" ++
        (out ++ "\""))), ?_⟩
  simp [cmdA_multi inputs out h, String.append_assoc]

/-- Claim C1 witness: the second conjunct applied to the concrete two-input
job, its hypothesis discharged by computation. -/
theorem C1_witness :
    ∃ pre tail, cmdA ["a.mp4", "b.mp4"] "out.mp4"
      = pre ++ concatInputsA (["a.mp4", "b.mp4"] : List String).length ++ tail :=
  C1_join_order.2.1 ["a.mp4", "b.mp4"] "out.mp4" (by decide)

/-- Claim C2 counterexample: merge variant B routes even a single-clip job
(N = 1) through the concat join primitive — the command it builds and
executes for one input contains a `concat=n=1` stage, so the claim that no
rendered invocation for N = 1 contains a multi-input join stage is false on
this code. -/
theorem C2_counterexample :
    editShB ["a.mp4", "out.mp4"] = .exec (cmdB ["a.mp4"] "out.mp4")
      ∧ strContains (cmdB ["a.mp4"] "out.mp4") "concat=n=1" = true := by
  exact ⟨rfl, by decide⟩

/-- Claim C2 as amended: merge variant A does skip the join for a single-clip
job, mapping the clip's video and audio streams directly to the output with
no filter graph at all; merge variant B, however, appends a
`concat=n=N:v=1:a=1` join stage unconditionally, for every N including 1. -/
theorem C2_single_clip :
    (∀ p out : String, cmdA [p] out =
        "ffmpeg" ++ " -i \"" ++ p ++ "\"" ++ " -map 0:v -map 0:a"
          ++ " -c:v libx264 -crf 23 -preset veryfast -c:a aac -b:a 192k \"" ++ out ++ "\"")
    ∧ (∀ n : Nat, ∃ pre, filterComplexB n
        = pre ++ ("concat=n=" ++ toString n ++ ":v=1:a=1 [v] [a]")) := by
  refine ⟨cmdA_single, ?_⟩
  intro n
  exact ⟨filterInputsB n, by simp [filterComplexB, String.append_assoc]⟩

/-- Claim C3 counterexample: for a single-clip job, merge variant A's rendered
command contains no `scale=` filter at all — the normalization stage is built
into the loop's accumulator but the accumulator is dropped on the
single-input branch, so a single clip is not normalized and the claim that no
code path skips normalization for a single clip is false on this code. -/
theorem C3_counterexample :
    strContains (cmdA ["a.mp4"] "out.mp4") "scale=" = false := by decide

/-- Claim C3 as amended: for jobs with at least two clips, merge variant A's
filter graph contains the scale/pad/setsar normalization stage of every clip
index, and the graph is embedded in the rendered command; for a single-clip
job variant A renders the direct-map command with no filter graph (the clip's
geometry is left untouched); and merge variant B's graph contains no `scale=`
normalization at any size (shown at N = 1 and N = 3). -/
theorem C3_normalization_coverage :
    (∀ n i : Nat, i < n → ∃ pre post, filterComplexA n = pre ++ clipFilterA i ++ post)
    ∧ (∀ inputs : List String, ∀ out : String, 1 < inputs.length →
        ∃ tail, cmdA inputs out =
          ("ffmpeg" ++ String.join (inputs.map (fun p => " -i \"" ++ p ++ "\""))
            ++ " -filter_complex \"" ++ filterComplexA inputs.length) ++ tail)
    ∧ (∀ p out : String, cmdA [p] out =
        "ffmpeg" ++ " -i \"" ++ p ++ "\"" ++ " -map 0:v -map 0:a"
          ++ " -c:v libx264 -crf 23 -preset veryfast -c:a aac -b:a 192k \"" ++ out ++ "\"")
    ∧ strContains (filterComplexB 1) "scale=" = false
    ∧ strContains (filterComplexB 3) "scale=" = false := by
  refine ⟨fun n i h => filterComplexA_decomp h, ?_, cmdA_single, by decide, by decide⟩
  intro inputs out h
  exact ⟨_, cmdA_multi inputs out h⟩

/-- Claim C3 witness: the universally quantified conjuncts applied at a
two-clip job, hypotheses discharged by computation. -/
theorem C3_witness :
    (∃ pre post, filterComplexA 2 = pre ++ clipFilterA 0 ++ post)
    ∧ (∃ tail, cmdA ["a.mp4", "b.mp4"] "out.mp4" =
        ("ffmpeg" ++ String.join ((["a.mp4", "b.mp4"] : List String).map (fun p => " -i \"" ++ p ++ "\""))
          ++ " -filter_complex \"" ++ filterComplexA (["a.mp4", "b.mp4"] : List String).length) ++ tail) :=
  ⟨C3_normalization_coverage.1 2 0 (by decide),
   C3_normalization_coverage.2.1 ["a.mp4", "b.mp4"] "out.mp4" (by decide)⟩

/-- Claim C4: every per-clip normalization stage the scripts emit is exactly
the canonical stage — scale into the 1920x1080 box with
`force_original_aspect_ratio=decrease`, pad to exactly 1920x1080 with the
centering offsets `(ow-iw)/2` and `(oh-ih)/2`, and `setsar=1`: the variant-A
loop fragment for every index renders the canonical stage, and the fixed
3-input and 9-input scripts' filter literals decompose into those same
canonical stages. -/
theorem C4_normalization_stage :
    (∀ i : Nat, clipFilterA i = renderNormStage (canonicalStage i))
    ∧ filter3Fixed = String.join ((List.range 3).map (fun i => renderNormStage (canonicalStage i) ++ " "))
        ++ concatInputsA 3 ++ "concat=n=3:v=1:a=1[v][a]"
    ∧ filter9Fixed = String.join ((List.range 9).map (fun i => renderNormStage (canonicalStage i) ++ " "))
        ++ concatInputsA 9 ++ "concat=n=9:v=1:a=1[v][a]" :=
  ⟨clipFilterA_canonical, by decide, by decide⟩

/-- Claim C5 counterexample: for a single-clip job (N = 1) merge variant A's
rendered invocation contains zero per-clip filter stages, not one — the
filter graph is dropped on the single-input branch — so the claim that the
rendered graph contains exactly N per-clip stages for every N >= 1 is false
on this code (for contrast, the two-clip command does contain two stages). -/
theorem C5_counterexample :
    stageCount (cmdA ["a.mp4"] "out.mp4") = 0
      ∧ stageCount (cmdA ["a.mp4", "b.mp4"] "out.mp4") = 2 := by
  exact ⟨by decide, by decide⟩

/-- Claim C5 as amended: the variant-A filter graph for N inputs is the
concatenation of exactly N per-clip stages, one per index in order, and for
jobs with at least two clips that graph is embedded in the rendered command;
but for N = 1 the rendered command is the direct-map form containing no
filter stage at all. -/
theorem C5_stage_count :
    (∀ n : Nat, filterComplexA n = String.join ((List.range n).map clipFilterA)
        ∧ ((List.range n).map clipFilterA).length = n)
    ∧ (∀ inputs : List String, ∀ out : String, 1 < inputs.length →
        ∃ tail, cmdA inputs out =
          ("ffmpeg" ++ String.join (inputs.map (fun p => " -i \"" ++ p ++ "\""))
            ++ " -filter_complex \"" ++ filterComplexA inputs.length) ++ tail)
    ∧ (∀ p out : String, stageCount (cmdA [p] out)
        = stageCount ("ffmpeg" ++ " -i \"" ++ p ++ "\"" ++ " -map 0:v -map 0:a"
            ++ " -c:v libx264 -crf 23 -preset veryfast -c:a aac -b:a 192k \"" ++ out ++ "\"")) := by
  refine ⟨fun n => ⟨filterComplexA_join n, by simp⟩, ?_, fun p out => by rw [cmdA_single]⟩
  intro inputs out h
  exact ⟨_, cmdA_multi inputs out h⟩

/-- Claim C5 witness: the quantified conjuncts applied at a concrete
two-clip job, hypotheses discharged by computation. -/
theorem C5_witness :
    (filterComplexA 2 = String.join ((List.range 2).map clipFilterA)
      ∧ ((List.range 2).map clipFilterA).length = 2)
    ∧ (∃ tail, cmdA ["a.mp4", "b.mp4"] "out.mp4" =
        ("ffmpeg" ++ String.join ((["a.mp4", "b.mp4"] : List String).map (fun p => " -i \"" ++ p ++ "\""))
          ++ " -filter_complex \"" ++ filterComplexA (["a.mp4", "b.mp4"] : List String).length) ++ tail) :=
  ⟨C5_stage_count.1 2, C5_stage_count.2.1 ["a.mp4", "b.mp4"] "out.mp4" (by decide)⟩

/-- Claim C6 counterexample: a job whose only clip has zero intrinsic
dimensions (corrupt media) is not rejected with a ClipUnreadable error —
merge variant A renders and executes the engine invocation for it, so the
claim that no engine invocation is rendered for such a job is false on
this code (the scripts never read media dimensions at all). -/
theorem C6_counterexample :
    runJobA [⟨"corrupt.mp4", 0, 0, true⟩] "out.mp4" =
      ScriptResult.exec "ffmpeg -i \"corrupt.mp4\" -map 0:v -map 0:a -c:v libx264 -crf 23 -preset veryfast -c:a aac -b:a 192k \"out.mp4\"" := by
  rfl

/-- Claim C6 as amended: the pipeline performs no dimension validation and
has no ClipUnreadable error path — for every nonempty job an engine
invocation is rendered and executed, and the invocation depends only on the
clip paths, not on their width, height or any other metadata. -/
theorem C6_no_dimension_check (clips : List Clip) (out : String) (h : clips ≠ []) :
    (∃ c, runJobA clips out = .exec c)
      ∧ ∀ clips2 : List Clip, clips2.map Clip.path = clips.map Clip.path →
          runJobA clips2 out = runJobA clips out := by
  constructor
  · refine ⟨_, editShA_exec (clips.map Clip.path ++ [out]) ?_⟩
    have : 1 ≤ clips.length := Nat.one_le_iff_ne_zero.mpr (by simpa using h)
    simpa using Nat.succ_le_succ this
  · intro clips2 h2
    exact runJobA_paths clips2 clips out h2

/-- Claim C6 witness: the amended theorem applied to a concrete job holding a
zero-dimension clip, its hypothesis discharged by computation. -/
theorem C6_witness :
    (∃ c, runJobA [⟨"corrupt.mp4", 0, 0, true⟩] "out.mp4" = .exec c)
      ∧ ∀ clips2 : List Clip,
          clips2.map Clip.path = ([⟨"corrupt.mp4", 0, 0, true⟩] : List Clip).map Clip.path →
          runJobA clips2 "out.mp4" = runJobA [⟨"corrupt.mp4", 0, 0, true⟩] "out.mp4" :=
  C6_no_dimension_check [⟨"corrupt.mp4", 0, 0, true⟩] "out.mp4" (by decide)

/-- Claim C7 counterexample: for the spec's own scenario — clipA (1280x720,
with audio) followed by clipB (3840x2160, no audio) — the builder emits a
graph that unconditionally references clipB's audio stream `[1:a]`, with no
silent-track synthesis (`anullsrc` nowhere in the command) and no
AudioStreamMissing failure: the engine invocation is executed as is, so the
claim is false on this code. -/
theorem C7_counterexample :
    runJobA [⟨"clipA.mp4", 1280, 720, true⟩, ⟨"clipB.mp4", 3840, 2160, false⟩] "out.mp4"
        = .exec (cmdA ["clipA.mp4", "clipB.mp4"] "out.mp4")
      ∧ strContains (cmdA ["clipA.mp4", "clipB.mp4"] "out.mp4") "[1:a]" = true
      ∧ strContains (cmdA ["clipA.mp4", "clipB.mp4"] "out.mp4") "anullsrc" = false := by
  exact ⟨rfl, by decide, by decide⟩

/-- Claim C7 as amended: the join stage references every clip's original
audio stream `[i:a]` unconditionally — the pair for each index below N occurs
in the join input list — and the rendered invocation depends only on clip
paths, never on audio presence; no silent-track routing or
AudioStreamMissing error exists in the code. -/
theorem C7_audio_unconditional :
    (∀ n i : Nat, i < n →
        ∃ pre post, concatInputsA n = pre ++ (videoLabel i ++ audioLabel i) ++ post)
    ∧ ∀ clips clips2 : List Clip, ∀ out : String,
        clips.map Clip.path = clips2.map Clip.path →
        runJobA clips out = runJobA clips2 out := by
  constructor
  · intro n i h
    obtain ⟨pre, post, hp⟩ := concatInputsA_decomp h
    exact ⟨pre, post, by rw [hp, pair_split]⟩
  · exact fun clips clips2 out h => runJobA_paths clips clips2 out h

/-- Claim C7 witness: the amended theorem applied at N = 2, i = 1 and at the
spec's no-audio scenario, hypotheses discharged by computation. -/
theorem C7_witness :
    (∃ pre post, concatInputsA 2 = pre ++ (videoLabel 1 ++ audioLabel 1) ++ post)
    ∧ runJobA [⟨"clipA.mp4", 1280, 720, true⟩, ⟨"clipB.mp4", 3840, 2160, false⟩] "out.mp4"
        = runJobA [⟨"clipA.mp4", 1280, 720, false⟩, ⟨"clipB.mp4", 3840, 2160, true⟩] "out.mp4" :=
  ⟨C7_audio_unconditional.1 2 1 (by decide),
   C7_audio_unconditional.2
     [⟨"clipA.mp4", 1280, 720, true⟩, ⟨"clipB.mp4", 3840, 2160, false⟩]
     [⟨"clipA.mp4", 1280, 720, false⟩, ⟨"clipB.mp4", 3840, 2160, true⟩]
     "out.mp4" (by decide)⟩

/-- Claim C8 counterexample: two requests targeting the same output path
`out.mp4` are both turned into engine invocations — the second is executed,
not rejected with JobAlreadyRunning, while the first may still be running
(the script consults no job registry), so the claim is false on this code. -/
theorem C8_counterexample :
    processRequestsA [["a.mp4", "out.mp4"], ["b.mp4", "out.mp4"]] =
      [ScriptResult.exec "ffmpeg -i \"a.mp4\" -map 0:v -map 0:a -c:v libx264 -crf 23 -preset veryfast -c:a aac -b:a 192k \"out.mp4\"",
       ScriptResult.exec "ffmpeg -i \"b.mp4\" -map 0:v -map 0:a -c:v libx264 -crf 23 -preset veryfast -c:a aac -b:a 192k \"out.mp4\""] := by
  rfl

/-- Claim C8 as amended: no per-output-path mutual exclusion exists — each
request is an independent script invocation, so whatever an earlier request
was (same output path or not, still running or not), any later well-formed
request spawns its own engine process; nothing is ever rejected with
JobAlreadyRunning. -/
theorem C8_no_exclusion (r1 r2 : List String) (h : 2 ≤ r2.length) :
    processRequestsA [r1, r2]
      = [editShA r1, .exec (cmdA r2.dropLast (r2.getLastD ""))] := by
  rw [processRequestsA, List.map_cons, List.map_cons, List.map_nil, editShA_exec r2 h]

/-- Claim C8 witness: the amended theorem applied to two concrete requests
with the same output path, its hypothesis discharged by computation. -/
theorem C8_witness :
    processRequestsA [["a.mp4", "out.mp4"], ["b.mp4", "out.mp4"]]
      = [editShA ["a.mp4", "out.mp4"],
         .exec (cmdA (["b.mp4", "out.mp4"] : List String).dropLast
           ((["b.mp4", "out.mp4"] : List String).getLastD ""))] :=
  C8_no_exclusion ["a.mp4", "out.mp4"] ["b.mp4", "out.mp4"] (by decide)

/-- Claim C9 counterexample: with the engine exiting 0 but the declared
output file missing and zero bytes long, merge variant A still reports
success (script exit status 0) — the script never checks the output file —
so the claim that success is never reported for a zero-byte or missing
output is false on this code. -/
theorem C9_counterexample :
    scriptExitA ["a.mp4", "b.mp4", "out.mp4"] ⟨0, false, 0⟩ = 0 := by
  rfl

/-- Claim C9 as amended: for every well-formed invocation the script's exit
status is exactly the engine's exit code — the outcome is independent of
whether the output file exists and of its size, because no verification
follows the eval. -/
theorem C9_exit_passthrough (args : List String) (run : EngineRun) (h : 2 ≤ args.length) :
    scriptExitA args run = run.exitCode := by
  rw [scriptExitA, editShA_exec args h]

/-- Claim C9 witness: the amended theorem applied at a concrete invocation
and engine run, its hypothesis discharged by computation. -/
theorem C9_witness :
    scriptExitA ["a.mp4", "b.mp4", "out.mp4"] ⟨7, true, 4096⟩ = 7 :=
  C9_exit_passthrough ["a.mp4", "b.mp4", "out.mp4"] ⟨7, true, 4096⟩ (by decide)

/-- Claim C10: the argument-arity guards — merge variant A invoked with fewer
than 2 arguments, and the fixed 3-input and 9-input scripts invoked with
argument counts other than exactly 4 and exactly 10, print their usage
message and exit with status 1 without invoking the engine. -/
theorem C10_arity_guards :
    (∀ args : List String, args.length < 2 → editShA args = .usage usageA 1)
    ∧ (∀ args : List String, args.length ≠ 4 → merge3 args = .usage usage3 1)
    ∧ (∀ args : List String, args.length ≠ 10 → merge9 args = .usage usage9 1) := by
  refine ⟨fun args h => by simp [editShA, h],
    fun args h => by simp [merge3, h],
    fun args h => by simp [merge9, h]⟩

/-- Claim C10 witness: each guard applied at a concrete bad arity, the
hypotheses discharged by computation. -/
theorem C10_witness :
    editShA ["only.mp4"] = .usage usageA 1
      ∧ merge3 ["a.mp4", "out.mp4"] = .usage usage3 1
      ∧ merge9 ["a.mp4", "out.mp4"] = .usage usage9 1 :=
  ⟨C10_arity_guards.1 ["only.mp4"] (by decide),
   C10_arity_guards.2.1 ["a.mp4", "out.mp4"] (by decide),
   C10_arity_guards.2.2 ["a.mp4", "out.mp4"] (by decide)⟩

end AgentVideoEditor
